import Mathlib

/-!
Shallow embedding of the calorie/BMI/TDEE formula engine, the daily
aggregation query, and the goal evaluator of the Smart-Calorie-Tracker
CLI (src/main.py), together with theorems settling the specification
claims about them.  Python floats are modelled by exact rationals;
Python `round` (banker's rounding) and `int()` (truncation toward zero)
are modelled explicitly.
-/

namespace CalorieTracker

/-- Python `round(x)` on a rational: round half to even. -/
def pyRound (q : ℚ) : ℤ :=
  let f := ⌊q⌋
  let r := q - (f : ℚ)
  if r < 1/2 then f
  else if 1/2 < r then f + 1
  else if 2 ∣ f then f else f + 1

/-- Python `int(x)`: truncation toward zero. -/
def pyTrunc (q : ℚ) : ℤ :=
  if 0 ≤ q then ⌊q⌋ else ⌈q⌉

/-- Python `round(x, 2)`: round to two decimal places, half to even. -/
def pyRound2 (q : ℚ) : ℚ :=
  (pyRound (q * 100) : ℚ) / 100

/-- The gender values offered by the registration menu (src/main.py lines 549-554). -/
inductive Gender
  | Male
  | Female
  | Other
deriving DecidableEq

/-- The string stored for each menu gender choice (src/main.py line 554). -/
def genderStr : Gender → String
  | .Male => "Male"
  | .Female => "Female"
  | .Other => "Other"

/-- Python `str.lower()`, modelled characterwise (kernel-reducible, unlike
`String.toLower`). -/
def lowerStr (s : String) : String := ⟨s.data.map Char.toLower⟩

/-- `EnhancedCalorieCalculator.calculate_bmr_static` (src/main.py lines 683-691):
Mifflin-St Jeor BMR, `+5` when `gender.lower() == 'male'`, `-161` otherwise,
rounded to 2 decimal places. -/
def calculate_bmr_static (weight height : ℚ) (age : ℤ) (gender : String) : ℚ :=
  let bmr :=
    if lowerStr gender = "male" then
      (10 * weight) + (6.25 * height) - (5 * (age : ℚ)) + 5
    else
      (10 * weight) + (6.25 * height) - (5 * (age : ℚ)) - 161
  pyRound2 bmr

/-- `EnhancedCalorieCalculator.calculate_bmi` (src/main.py lines 693-698). -/
def calculate_bmi (weight height : ℚ) : ℚ :=
  let height_m := height / 100
  pyRound2 (weight / height_m ^ 2)

/-- `Config.BMI_CATEGORIES` (src/main.py lines 70-75), in dict insertion order. -/
def BMI_CATEGORIES : List (String × ℚ × ℚ) :=
  [("Underweight", 0, 18.5),
   ("Normal", 18.5, 25),
   ("Overweight", 25, 30),
   ("Obese", 30, 100)]

/-- The loop of `get_bmi_category`: first category whose half-open range
contains the value, else fall through. -/
def lookupRange (cats : List (String × ℚ × ℚ)) (bmi : ℚ) : String :=
  match cats with
  | [] => "Unknown"
  | (category, min_bmi, max_bmi) :: rest =>
    if min_bmi ≤ bmi ∧ bmi < max_bmi then category else lookupRange rest bmi

/-- `EnhancedCalorieCalculator.get_bmi_category` (src/main.py lines 700-706). -/
def get_bmi_category (bmi : ℚ) : String :=
  lookupRange BMI_CATEGORIES bmi

/-- The goal types offered by the registration menu (src/main.py line 584). -/
inductive GoalType
  | lose
  | maintain
  | gain
deriving DecidableEq

/-- `Config.GOAL_CALORIE_ADJUSTMENT` (src/main.py lines 78-82), restricted to its
three keys, which the registration menu guarantees (line 584). -/
def GOAL_CALORIE_ADJUSTMENT : GoalType → ℤ
  | .lose => -500
  | .maintain => 0
  | .gain => 300

/-- Line 594 of src/main.py given the already computed TDEE:
`daily_calorie_goal = int(tdee + Config.GOAL_CALORIE_ADJUSTMENT[goal_type])`. -/
def registration_daily_goal (tdee : ℚ) (goal_type : GoalType) : ℤ :=
  pyTrunc (tdee + (GOAL_CALORIE_ADJUSTMENT goal_type : ℚ))

/-- The activity levels offered by the registration menu (src/main.py lines 569-576). -/
inductive ActivityLevel
  | Sedentary
  | Light
  | Moderate
  | Active
  | VeryActive
deriving DecidableEq

/-- The string stored for each menu activity choice (src/main.py lines 570-576). -/
def activityLevelStr : ActivityLevel → String
  | .Sedentary => "Sedentary"
  | .Light => "Light"
  | .Moderate => "Moderate"
  | .Active => "Active"
  | .VeryActive => "Very Active"

/-- `Config.ACTIVITY_MULTIPLIERS` (src/main.py lines 61-67), in dict insertion order. -/
def ACTIVITY_MULTIPLIERS : List (String × ℚ) :=
  [("Sedentary", 1.2),
   ("Light", 1.375),
   ("Moderate", 1.55),
   ("Active", 1.725),
   ("Very Active", 1.9)]

/-- `Config.ACTIVITY_MULTIPLIERS.get(level, 1.2)` as used by the live path
`calculate_daily_calories` (src/main.py line 773). -/
def live_multiplier (level : String) : ℚ :=
  ((ACTIVITY_MULTIPLIERS.find? (fun e => e.1 == level)).map Prod.snd).getD 1.2

/-- `tdee = bmr * multiplier` on the live path (src/main.py line 774). -/
def live_tdee (bmr : ℚ) (level : String) : ℚ :=
  bmr * live_multiplier level

/-- `Config.ACTIVITY_MULTIPLIERS[activity_level]` on the registration path
(src/main.py line 592): a plain dict access with no default, modelled as an
`Option` (`none` would be a `KeyError`). -/
def registration_multiplier (a : ActivityLevel) : Option ℚ :=
  (ACTIVITY_MULTIPLIERS.find? (fun e => e.1 == activityLevelStr a)).map Prod.snd

/-- `tdee = bmr * multiplier` on the registration path (src/main.py line 593). -/
def registration_tdee (bmr : ℚ) (a : ActivityLevel) : Option ℚ :=
  (registration_multiplier a).map (fun m => bmr * m)

/-- The status classified by `show_daily_report` (src/main.py lines 1150-1153). -/
inductive GoalStatus
  | OVER (exceeded_by : ℚ)
  | LOW
  | ON_TRACK
deriving DecidableEq

/-- The goal-evaluation core of `EnhancedCalorieCalculator.show_daily_report`
(src/main.py lines 1126-1153): `remaining_cal = max(0, daily_goal - total_cal)`,
then the over / low / on-track classification; the over warning reports
`abs(remaining_cal)` as the exceeded-by amount (line 1151). -/
def show_daily_report_eval (total_cal : ℚ) (daily_goal : ℤ) : ℚ × GoalStatus :=
  let remaining_cal := max 0 ((daily_goal : ℚ) - total_cal)
  let status :=
    if total_cal > (daily_goal : ℚ) then GoalStatus.OVER |remaining_cal|
    else if total_cal < (daily_goal : ℚ) * 0.7 then GoalStatus.LOW
    else GoalStatus.ON_TRACK
  (remaining_cal, status)

/-- The `users` table columns read by `calculate_daily_calories` and
`calculate_bmr` (src/main.py lines 727-740, 756-760).  `daily_calorie_goal`
is a nullable integer column. -/
structure UserRow where
  age : ℤ
  gender : String
  weight_kg : ℚ
  height_cm : ℚ
  activity_level : String
  daily_calorie_goal : Option ℤ

/-- Python truthiness of a nullable integer: `NULL` and `0` are falsy. -/
def truthyIntOpt : Option ℤ → Bool
  | none => false
  | some v => v != 0

/-- `EnhancedCalorieCalculator.calculate_daily_calories` (src/main.py lines
751-776) given the fetched user row: return the stored goal if truthy, else
recompute `round(bmr * multiplier)` with the `.get(level, 1.2)` fallback. -/
def calculate_daily_calories (u : UserRow) : ℤ :=
  if truthyIntOpt u.daily_calorie_goal then
    u.daily_calorie_goal.getD 0
  else
    let bmr := calculate_bmr_static u.weight_kg u.height_cm u.age u.gender
    pyRound (live_tdee bmr u.activity_level)

/-- A `food_items` row: id and the four per-100g macro columns
(src/main.py lines 946-947, 1071-1078). -/
structure FoodItem where
  food_id : ℕ
  calories_per_100g : ℚ
  protein_g : ℚ
  carbs_g : ℚ
  fat_g : ℚ
deriving DecidableEq

/-- A `daily_intake` row (src/main.py lines 1043-1047). Dates are opaque keys. -/
structure IntakeRecord where
  user_id : ℕ
  food_id : ℕ
  quantity_g : ℚ
  intake_date : ℕ
  meal_type : String
deriving DecidableEq

/-- The row an intake record contributes to the join of `daily_intake` with
`food_items` in `get_daily_summary` (src/main.py lines 1071-1079): `some` of
(quantity, food) when the record matches the user and date and its food id
joins, else nothing. -/
def joinRow (foods : List FoodItem) (uid target_date : ℕ) (r : IntakeRecord) :
    Option (ℚ × FoodItem) :=
  if r.user_id = uid ∧ r.intake_date = target_date then
    (foods.find? (fun f => f.food_id == r.food_id)).map (fun f => (r.quantity_g, f))
  else none

/-- All rows of the join, in intake-table order. -/
def joinRows (intake : List IntakeRecord) (foods : List FoodItem)
    (uid target_date : ℕ) : List (ℚ × FoodItem) :=
  intake.filterMap (joinRow foods uid target_date)

/-- The food item joined to an intake record: the `food_items` row whose id
matches (`JOIN food_items T2 ON T1.food_id = T2.food_id`, src/main.py
line 1078; `food_id` is the primary key, so at most one row matches). -/
def matchedFood (foods : List FoodItem) (r : IntakeRecord) : FoodItem :=
  (foods.find? (fun f => f.food_id == r.food_id)).getD ⟨0, 0, 0, 0, 0⟩

/-- The result row of the aggregation query of `get_daily_summary`. -/
structure DailySummary where
  total_calories : ℚ
  total_protein : ℚ
  total_carbs : ℚ
  total_fat : ℚ
deriving DecidableEq

/-- `EnhancedCalorieCalculator.get_daily_summary` (src/main.py lines 1064-1097):
`SUM(quantity_g * (macro / 100))` over the join; SQL `SUM` over zero rows is
`NULL`, and the code returns `None` exactly when `total_calories` is `NULL`
(lines 1085-1089). -/
def get_daily_summary (intake : List IntakeRecord) (foods : List FoodItem)
    (uid target_date : ℕ) : Option DailySummary :=
  let rows := joinRows intake foods uid target_date
  if rows.isEmpty then none
  else some
    { total_calories := (rows.map (fun p => p.1 * (p.2.calories_per_100g / 100))).sum
      total_protein := (rows.map (fun p => p.1 * (p.2.protein_g / 100))).sum
      total_carbs := (rows.map (fun p => p.1 * (p.2.carbs_g / 100))).sum
      total_fat := (rows.map (fun p => p.1 * (p.2.fat_g / 100))).sum }

/-- A `weight_tracking` row as written by `add_weight_entry_internal`
(src/main.py lines 891-895). -/
structure WeightRow where
  weight_kg : ℚ
  bmi : ℚ
deriving DecidableEq

/-- The database state touched by weight tracking and intake logging:
`users.height_cm` (nullable) and `users.weight_kg` per user id, the
`weight_tracking` table keyed by its UNIQUE `(user_id, recorded_date)`, and
the `daily_intake` table keyed by its UNIQUE
`(user_id, food_id, intake_date, meal_type)`. -/
structure DBState where
  users_height : ℕ → Option ℚ
  users_weight : ℕ → ℚ
  weight_tracking : ℕ × ℕ → Option WeightRow
  daily_intake : ℕ × ℕ × ℕ × String → Option ℚ

/-- `EnhancedCalorieCalculator.add_weight_entry_internal` (src/main.py lines
873-910): abort if the user's height is missing or falsy; otherwise
`INSERT ... ON DUPLICATE KEY UPDATE` the `(user, date)` weight row with the
new weight and derived BMI, and update `users.weight_kg`. -/
def add_weight_entry_internal (db : DBState) (user_id : ℕ) (weight : ℚ)
    (recorded_date : ℕ) : DBState :=
  match db.users_height user_id with
  | none => db
  | some height =>
    if height = 0 then db
    else
      let bmi := calculate_bmi weight height
      { db with
        weight_tracking :=
          Function.update db.weight_tracking (user_id, recorded_date)
            (some ⟨weight, bmi⟩)
        users_weight := Function.update db.users_weight user_id weight }

/-- The `INSERT ... ON DUPLICATE KEY UPDATE quantity_g = quantity_g +
VALUES(quantity_g)` of `log_daily_intake` (src/main.py lines 1043-1047). -/
def log_daily_intake (db : DBState) (user_id food_id : ℕ) (quantity_g : ℚ)
    (intake_date : ℕ) (meal_type : String) : DBState :=
  let key := (user_id, food_id, intake_date, meal_type)
  let new_q :=
    match db.daily_intake key with
    | none => quantity_g
    | some old => old + quantity_g
  { db with daily_intake := Function.update db.daily_intake key (some new_q) }

/-- A concrete database state: one registered user shape (height 175 cm,
weight 70 kg everywhere), no weight entries, no intake rows. -/
def exampleDB : DBState where
  users_height := fun _ => some 175
  users_weight := fun _ => 70
  weight_tracking := fun _ => none
  daily_intake := fun _ => none

/-!  Theorems settling the claims. -/

/-- C1: the daily-report evaluation at totalCalories = 2500, dailyGoal = 2000
returns remaining = 0 and status OVER, but the exceeded-by amount it reports is
`abs(remaining_cal) = abs(max(0, 2000 - 2500)) = 0`, not
`totalCalories - dailyGoal = 500` as the claim states. -/
theorem show_daily_report_eval_reports_zero_exceeded_by :
    show_daily_report_eval 2500 2000 = (0, GoalStatus.OVER 0) ∧
    (2500 : ℚ) - 2000 = 500 ∧ (0 : ℚ) ≠ 500 := by
  refine ⟨?_, by norm_num, by norm_num⟩
  unfold show_daily_report_eval
  norm_num

/-- C2 counterexample: line 594 truncates with Python `int()`, so at
tdee = 2000.9 the stored gain goal is 2300 while `round(tdee + 300) = 2301`;
the claim `goal = round(tdee + adjustment)` fails there. -/
theorem registration_daily_goal_truncates_not_rounds :
    registration_daily_goal (20009/10) GoalType.gain = 2300 ∧
    pyRound ((20009/10 : ℚ) + 300) = 2301 ∧
    registration_daily_goal (20009/10) GoalType.gain ≠
      pyRound ((20009/10 : ℚ) + 300) := by
  refine ⟨?_, ?_, ?_⟩ <;>
    norm_num [registration_daily_goal, GOAL_CALORIE_ADJUSTMENT, pyTrunc, pyRound]

/-- C2 amended: for every tdee and goal type, the daily goal stored at
registration equals `int(tdee + adjustment)` (truncation toward zero) with
adjustments lose = -500, maintain = 0, gain = +300; in particular at
tdee = 2000 the three goals are 1500, 2000 and 2300. -/
theorem registration_daily_goal_spec (tdee : ℚ) :
    (∀ g : GoalType,
      registration_daily_goal tdee g =
        pyTrunc (tdee + (GOAL_CALORIE_ADJUSTMENT g : ℚ))) ∧
    GOAL_CALORIE_ADJUSTMENT .lose = -500 ∧
    GOAL_CALORIE_ADJUSTMENT .maintain = 0 ∧
    GOAL_CALORIE_ADJUSTMENT .gain = 300 ∧
    registration_daily_goal 2000 .lose = 1500 ∧
    registration_daily_goal 2000 .maintain = 2000 ∧
    registration_daily_goal 2000 .gain = 2300 := by
  refine ⟨fun g => rfl, rfl, rfl, rfl, ?_, ?_, ?_⟩ <;>
    norm_num [registration_daily_goal, GOAL_CALORIE_ADJUSTMENT, pyTrunc]

/-- C3: for every weight, height, age and gender, the BMR is
`10*w + 6.25*h - 5*a + 5` for Male and `10*w + 6.25*h - 5*a - 161` for every
other gender, rounded to 2 decimal places. -/
theorem calculate_bmr_static_formula (w h : ℚ) (a : ℤ) (g : Gender) :
    calculate_bmr_static w h a (genderStr g) =
      pyRound2 ((10 * w) + (6.25 * h) - (5 * (a : ℚ)) +
        (if g = Gender.Male then 5 else -161)) := by
  cases g with
  | Male =>
    have hm : lowerStr "Male" = "male" := by decide
    simp only [calculate_bmr_static, genderStr, hm, reduceIte]
  | Female =>
    have hm : ¬ lowerStr "Female" = "male" := by decide
    have hg : Gender.Female ≠ Gender.Male := by decide
    rw [if_neg hg]
    simp only [calculate_bmr_static, genderStr, hm, reduceIte]
    congr 1
    ring
  | Other =>
    have hm : ¬ lowerStr "Other" = "male" := by decide
    have hg : Gender.Other ≠ Gender.Male := by decide
    rw [if_neg hg]
    simp only [calculate_bmr_static, genderStr, hm, reduceIte]
    congr 1
    ring

/-- C4 counterexample: at (70, 175, 30) the computed BMR is 1648.75 for Male
and 1482.75 for Female, not the 1673.75 / 1507.75 the claim states (those
values would require age 25). -/
theorem calculate_bmr_static_example_values_refuted :
    calculate_bmr_static 70 175 30 "Male" = 1648.75 ∧
    (1648.75 : ℚ) ≠ 1673.75 ∧
    calculate_bmr_static 70 175 30 "Female" = 1482.75 ∧
    (1482.75 : ℚ) ≠ 1507.75 := by
  have hm : lowerStr "Male" = "male" := by decide
  have hf : ¬ lowerStr "Female" = "male" := by decide
  refine ⟨?_, by norm_num, ?_, by norm_num⟩ <;>
    norm_num [calculate_bmr_static, hm, hf, pyRound2, pyRound]

/-- C4 amended: computeBMR(70, 175, 30, Male) equals 1648.75 and
computeBMR(70, 175, 30, Female) equals 1482.75. -/
theorem calculate_bmr_static_example_values :
    calculate_bmr_static 70 175 30 "Male" = 1648.75 ∧
    calculate_bmr_static 70 175 30 "Female" = 1482.75 := by
  have hm : lowerStr "Male" = "male" := by decide
  have hf : ¬ lowerStr "Female" = "male" := by decide
  refine ⟨?_, ?_⟩ <;> norm_num [calculate_bmr_static, hm, hf, pyRound2, pyRound]

/-- C5: the BMI classification is the ordered half-open-interval lookup
Underweight [0, 18.5), Normal [18.5, 25), Overweight [25, 30),
Obese [30, 100), every value below 0 or at least 100 falls through to
"Unknown", and the boundary examples 18.4, 18.5, 24.99 and 25.0 classify as
Underweight, Normal, Normal and Overweight. -/
theorem get_bmi_category_spec (bmi : ℚ) :
    (get_bmi_category bmi = "Underweight" ↔ 0 ≤ bmi ∧ bmi < 18.5) ∧
    (get_bmi_category bmi = "Normal" ↔ 18.5 ≤ bmi ∧ bmi < 25) ∧
    (get_bmi_category bmi = "Overweight" ↔ 25 ≤ bmi ∧ bmi < 30) ∧
    (get_bmi_category bmi = "Obese" ↔ 30 ≤ bmi ∧ bmi < 100) ∧
    ((100 ≤ bmi ∨ bmi < 0) → get_bmi_category bmi = "Unknown") ∧
    get_bmi_category 18.4 = "Underweight" ∧
    get_bmi_category 18.5 = "Normal" ∧
    get_bmi_category 24.99 = "Normal" ∧
    get_bmi_category 25.0 = "Overweight" := by
  refine ⟨?_, ?_, ?_, ?_, ?_,
    by norm_num [get_bmi_category, BMI_CATEGORIES, lookupRange],
    by norm_num [get_bmi_category, BMI_CATEGORIES, lookupRange],
    by norm_num [get_bmi_category, BMI_CATEGORIES, lookupRange],
    by norm_num [get_bmi_category, BMI_CATEGORIES, lookupRange]⟩
  all_goals simp only [get_bmi_category, BMI_CATEGORIES, lookupRange]
  all_goals split_ifs with h1 h2 h3 h4 <;> simp_all
  all_goals try obtain ⟨ha, hb⟩ := h1
  all_goals try obtain ⟨ha, hb⟩ := h2
  all_goals try obtain ⟨hc, hd⟩ := h3
  all_goals try obtain ⟨hc, hd⟩ := h4
  all_goals try refine ⟨?_, ?_⟩
  all_goals intros
  all_goals linarith

/-- C5 witness: the fall-through conjunct applied at the concrete value 150. -/
theorem get_bmi_category_spec_witness :
    (100 ≤ (150 : ℚ) ∨ (150 : ℚ) < 0) ∧ get_bmi_category 150 = "Unknown" :=
  ⟨Or.inl (by norm_num),
    (get_bmi_category_spec 150).2.2.2.2.1 (Or.inl (by norm_num))⟩

/-- C9: the live-path TDEE is bmr times the multiplier Sedentary 1.2,
Light 1.375, Moderate 1.55, Active 1.725, Very Active 1.9, with fallback
multiplier 1.2 for any level outside the table; the registration path, whose
level is one of the five menu choices, hits the table (no fallback) and
agrees with the live path. -/
theorem tdee_multiplier_spec (bmr : ℚ) (s : String)
    (hs : s ∉ ACTIVITY_MULTIPLIERS.map Prod.fst) :
    live_tdee bmr "Sedentary" = bmr * 1.2 ∧
    live_tdee bmr "Light" = bmr * 1.375 ∧
    live_tdee bmr "Moderate" = bmr * 1.55 ∧
    live_tdee bmr "Active" = bmr * 1.725 ∧
    live_tdee bmr "Very Active" = bmr * 1.9 ∧
    live_tdee bmr s = bmr * 1.2 ∧
    ∀ a : ActivityLevel,
      registration_tdee bmr a = some (live_tdee bmr (activityLevelStr a)) := by
  have hnone : ACTIVITY_MULTIPLIERS.find? (fun e => e.1 == s) = none := by
    rw [List.find?_eq_none]
    intro x hx
    simp only [ACTIVITY_MULTIPLIERS, List.mem_cons, List.not_mem_nil, or_false] at hx
    simp only [ACTIVITY_MULTIPLIERS, List.map_cons, List.map_nil, List.mem_cons,
      List.not_mem_nil, or_false, not_or] at hs
    rcases hx with h | h | h | h | h <;> subst h <;> simp <;> tauto
  refine ⟨?_, ?_, ?_, ?_, ?_, ?_, ?_⟩
  · simp [live_tdee, live_multiplier, ACTIVITY_MULTIPLIERS, List.find?]
  · simp [live_tdee, live_multiplier, ACTIVITY_MULTIPLIERS, List.find?]
  · simp [live_tdee, live_multiplier, ACTIVITY_MULTIPLIERS, List.find?]
  · simp [live_tdee, live_multiplier, ACTIVITY_MULTIPLIERS, List.find?]
  · simp [live_tdee, live_multiplier, ACTIVITY_MULTIPLIERS, List.find?]
  · simp [live_tdee, live_multiplier, hnone]
  · intro a
    cases a <;>
      simp [registration_tdee, registration_multiplier, live_tdee,
        live_multiplier, activityLevelStr, ACTIVITY_MULTIPLIERS, List.find?]

/-- C9 witness: a level outside the table falls back to multiplier 1.2. -/
theorem tdee_multiplier_spec_witness :
    (("Couch" : String) ∉ ACTIVITY_MULTIPLIERS.map Prod.fst) ∧
    live_tdee 100 "Couch" = 100 * 1.2 :=
  ⟨by decide, (tdee_multiplier_spec 100 "Couch" (by decide)).2.2.2.2.2.1⟩

/-- C10: the daily-calorie lookup returns the stored goal only when it is
non-NULL and non-zero; a NULL or zero stored goal makes it recompute
`round(bmr * multiplier)` instead. -/
theorem calculate_daily_calories_goal_lookup (u : UserRow) :
    (∀ g : ℤ, u.daily_calorie_goal = some g → g ≠ 0 →
      calculate_daily_calories u = g) ∧
    ((u.daily_calorie_goal = none ∨ u.daily_calorie_goal = some 0) →
      calculate_daily_calories u =
        pyRound (live_tdee
          (calculate_bmr_static u.weight_kg u.height_cm u.age u.gender)
          u.activity_level)) := by
  constructor
  · intro g hg hne
    simp [calculate_daily_calories, truthyIntOpt, hg, hne]
  · rintro (h | h) <;> simp [calculate_daily_calories, truthyIntOpt, h]

/-- C10 witness: a stored goal 1800 is returned as is, and a stored goal 0 is
recomputed from BMR and activity multiplier. -/
theorem calculate_daily_calories_goal_lookup_witness :
    calculate_daily_calories ⟨30, "Male", 70, 175, "Sedentary", some 1800⟩ = 1800 ∧
    calculate_daily_calories ⟨30, "Male", 70, 175, "Sedentary", some 0⟩ =
      pyRound (live_tdee (calculate_bmr_static 70 175 30 "Male") "Sedentary") :=
  ⟨(calculate_daily_calories_goal_lookup _).1 1800 rfl (by norm_num),
   (calculate_daily_calories_goal_lookup _).2 (Or.inr rfl)⟩

/-- C6: with zero intake records matching the user and date, the daily summary
is `None` (an explicit absent result), never a zero-filled summary. -/
theorem get_daily_summary_absent (intake : List IntakeRecord)
    (foods : List FoodItem) (uid d : ℕ)
    (h : ∀ r ∈ intake, ¬ (r.user_id = uid ∧ r.intake_date = d)) :
    get_daily_summary intake foods uid d = none ∧
    ∀ s : DailySummary, get_daily_summary intake foods uid d ≠ some s := by
  have hrows : joinRows intake foods uid d = [] := by
    rw [joinRows, List.filterMap_eq_nil_iff]
    intro r hr
    simp [joinRow, h r hr]
  refine ⟨?_, ?_⟩ <;> simp [get_daily_summary, hrows]

/-- C6 witness: one record logged for another date yields an absent summary. -/
theorem get_daily_summary_absent_witness :
    get_daily_summary [⟨1, 2, 50, 5, "Lunch"⟩] [⟨2, 250, 10, 30, 5⟩] 1 7 = none :=
  (get_daily_summary_absent _ _ 1 7 (by decide)).1

theorem sum_map_congr {α : Type} (l : List α) (f g : α → ℚ)
    (h : ∀ a ∈ l, f a = g a) : (l.map f).sum = (l.map g).sum := by
  induction l with
  | nil => rfl
  | cons a t ih =>
    simp only [List.map_cons, List.sum_cons]
    rw [h a (List.mem_cons_self a t),
      ih fun x hx => h x (List.mem_cons_of_mem a hx)]

theorem sum_map_mul_left_rat {α : Type} (l : List α) (f : α → ℚ) (c : ℚ) :
    (l.map (fun a => c * f a)).sum = c * (l.map f).sum := by
  induction l with
  | nil => simp
  | cons a t ih =>
    simp only [List.map_cons, List.sum_cons, ih]
    ring

/-- Each intake record with matching user and date and a joining food id
contributes exactly its (quantity, matched food) row. -/
theorem joinRows_eq_map (foods : List FoodItem) (uid d : ℕ) :
    ∀ l : List IntakeRecord,
      (∀ r ∈ l, r.user_id = uid ∧ r.intake_date = d) →
      (∀ r ∈ l, (foods.find? (fun f => f.food_id == r.food_id)).isSome) →
      joinRows l foods uid d = l.map (fun r => (r.quantity_g, matchedFood foods r)) := by
  intro l
  induction l with
  | nil => intro _ _; rfl
  | cons r t ih =>
    intro h1 h2
    have hr1 := h1 r (List.mem_cons_self r t)
    have hr2 := h2 r (List.mem_cons_self r t)
    obtain ⟨f, hf⟩ := Option.isSome_iff_exists.mp hr2
    have hjr : joinRow foods uid d r = some (r.quantity_g, matchedFood foods r) := by
      simp [joinRow, hr1.1, hr1.2, hf, matchedFood]
    simp only [joinRows, List.filterMap_cons, hjr, List.map_cons]
    exact congrArg _ (ih (fun x hx => h1 x (List.mem_cons_of_mem r hx))
      (fun x hx => h2 x (List.mem_cons_of_mem r hx)))

/-- Doubling every quantity doubles the quantity of every joined row. -/
theorem joinRows_double (foods : List FoodItem) (uid d : ℕ) :
    ∀ l : List IntakeRecord,
      joinRows (l.map (fun r => { r with quantity_g := 2 * r.quantity_g }))
          foods uid d =
        (joinRows l foods uid d).map (fun p => (2 * p.1, p.2)) := by
  intro l
  induction l with
  | nil => rfl
  | cons r t ih =>
    have hrow : joinRow foods uid d { r with quantity_g := 2 * r.quantity_g } =
        (joinRow foods uid d r).map (fun p => (2 * p.1, p.2)) := by
      simp only [joinRow]
      split_ifs with hc
      · cases foods.find? (fun f => f.food_id == r.food_id) <;> rfl
      · rfl
    simp only [List.map_cons, joinRows, List.filterMap_cons, hrow] at ih ⊢
    cases hjr : joinRow foods uid d r <;> simp [hjr, ih]

/-- C7: on matching records the daily summary is the sum over records of
quantity / 100 times the matched food's per-100g macros; the sum is invariant
under permutation of the records and doubles when every quantity doubles. -/
theorem get_daily_summary_sum_spec (intake : List IntakeRecord)
    (foods : List FoodItem) (uid d : ℕ)
    (hne : intake ≠ [])
    (hmatch : ∀ r ∈ intake, r.user_id = uid ∧ r.intake_date = d)
    (hjoin : ∀ r ∈ intake, (foods.find? (fun f => f.food_id == r.food_id)).isSome)
    (hq : ∀ r ∈ intake, 0 < r.quantity_g)
    (hmac : ∀ f ∈ foods,
      0 < f.calories_per_100g ∧ 0 < f.protein_g ∧ 0 < f.carbs_g ∧ 0 < f.fat_g) :
    (get_daily_summary intake foods uid d = some
      { total_calories := (intake.map (fun r =>
          r.quantity_g / 100 * (matchedFood foods r).calories_per_100g)).sum
        total_protein := (intake.map (fun r =>
          r.quantity_g / 100 * (matchedFood foods r).protein_g)).sum
        total_carbs := (intake.map (fun r =>
          r.quantity_g / 100 * (matchedFood foods r).carbs_g)).sum
        total_fat := (intake.map (fun r =>
          r.quantity_g / 100 * (matchedFood foods r).fat_g)).sum }) ∧
    (∀ intake' : List IntakeRecord, intake'.Perm intake →
      get_daily_summary intake' foods uid d =
        get_daily_summary intake foods uid d) ∧
    (get_daily_summary
        (intake.map (fun r => { r with quantity_g := 2 * r.quantity_g }))
        foods uid d =
      (get_daily_summary intake foods uid d).map (fun s =>
        ⟨2 * s.total_calories, 2 * s.total_protein,
         2 * s.total_carbs, 2 * s.total_fat⟩)) := by
  refine ⟨?_, ?_, ?_⟩
  · have hR := joinRows_eq_map foods uid d intake hmatch hjoin
    have hem : (joinRows intake foods uid d).isEmpty = false := by
      rw [hR, List.isEmpty_eq_false]
      simpa using hne
    simp only [get_daily_summary, hem, Bool.false_eq_true, if_false,
      Option.some_inj]
    rw [DailySummary.mk.injEq]
    refine ⟨?_, ?_, ?_, ?_⟩ <;>
      · rw [hR, List.map_map]
        refine sum_map_congr _ _ _ fun a _ => ?_
        simp only [Function.comp_apply]
        ring
  · intro l' hp
    have hperm : (joinRows l' foods uid d).Perm (joinRows intake foods uid d) :=
      hp.filterMap _
    by_cases hemp : joinRows intake foods uid d = []
    · have h2 : joinRows l' foods uid d = [] := (hemp ▸ hperm).eq_nil
      simp [get_daily_summary, hemp, h2]
    · have h2 : joinRows l' foods uid d ≠ [] := fun hh =>
        hemp ((hh ▸ hperm).symm.eq_nil)
      simp only [get_daily_summary, List.isEmpty_eq_false.mpr hemp,
        List.isEmpty_eq_false.mpr h2, Bool.false_eq_true, if_false,
        Option.some_inj]
      rw [DailySummary.mk.injEq]
      refine ⟨?_, ?_, ?_, ?_⟩ <;> exact (hperm.map _).sum_eq
  · have hdbl := joinRows_double foods uid d intake
    by_cases hemp : joinRows intake foods uid d = []
    · simp [get_daily_summary, hemp, hdbl]
    · have h2 : (joinRows intake foods uid d).map (fun p => (2 * p.1, p.2)) ≠ [] := by
        simpa using hemp
      simp only [get_daily_summary, hdbl, List.isEmpty_eq_false.mpr hemp,
        List.isEmpty_eq_false.mpr h2, Bool.false_eq_true, if_false,
        Option.map_some]
      refine congrArg some ?_
      rw [DailySummary.mk.injEq]
      refine ⟨?_, ?_, ?_, ?_⟩ <;>
        · rw [List.map_map]
          refine Eq.trans (sum_map_congr _ _ _ fun a _ => ?_)
            (sum_map_mul_left_rat _ _ _)
          simp only [Function.comp_apply]
          ring

/-- C7 witness: 50 g of a food with 250 kcal / 10 g protein / 30 g carbs /
5 g fat per 100 g sums to 125 kcal, 5 g, 15 g and 2.5 g. -/
theorem get_daily_summary_sum_spec_witness :
    get_daily_summary [⟨1, 2, 50, 7, "Lunch"⟩] [⟨2, 250, 10, 30, 5⟩] 1 7 =
      some ⟨125, 5, 15, 5/2⟩ := by
  have h := (get_daily_summary_sum_spec [⟨1, 2, 50, 7, "Lunch"⟩]
    [⟨2, 250, 10, 30, 5⟩] 1 7 (by decide) (by decide) (by decide)
    (by intro r hr; rw [List.mem_singleton] at hr; subst hr; norm_num)
    (by intro f hf; rw [List.mem_singleton] at hf; subst hf
        refine ⟨by norm_num, by norm_num, by norm_num, by norm_num⟩)).1
  rw [h]
  simp [matchedFood, List.find?]
  norm_num

/-- C8: repeating an identical weight-entry upsert for the same (user, date)
leaves the state unchanged (idempotent overwrite of stored weight and BMI),
while repeating an identical intake log for the same
(user, food, date, meal_type) key accumulates: after n logs of quantity q the
stored quantity is n * q. -/
theorem weight_upsert_idempotent_intake_accumulates
    (db : DBState) (uid food_id : ℕ) (w q : ℚ) (d : ℕ) (meal : String) (n : ℕ)
    (h0 : db.daily_intake (uid, food_id, d, meal) = none) :
    add_weight_entry_internal (add_weight_entry_internal db uid w d) uid w d =
      add_weight_entry_internal db uid w d ∧
    ((fun s => log_daily_intake s uid food_id q d meal)^[n] db).daily_intake
        (uid, food_id, d, meal) =
      (if n = 0 then none else some ((n : ℚ) * q)) := by
  constructor
  · cases hh : db.users_height uid with
    | none =>
      have e1 : add_weight_entry_internal db uid w d = db := by
        simp [add_weight_entry_internal, hh]
      rw [e1]
      exact e1
    | some hgt =>
      by_cases hz : hgt = 0
      · have e1 : add_weight_entry_internal db uid w d = db := by
          simp [add_weight_entry_internal, hh, hz]
        rw [e1]
        exact e1
      · have e1 : add_weight_entry_internal db uid w d =
            { db with
              weight_tracking :=
                Function.update db.weight_tracking (uid, d)
                  (some ⟨w, calculate_bmi w hgt⟩)
              users_weight := Function.update db.users_weight uid w } := by
          simp [add_weight_entry_internal, hh, hz]
        rw [e1]
        simp [add_weight_entry_internal, hh, hz, Function.update_idem]
  · induction n with
    | zero => simpa using h0
    | succ k ih =>
      rw [Function.iterate_succ_apply']
      set S := (fun s => log_daily_intake s uid food_id q d meal)^[k] db with hS
      have hval : (log_daily_intake S uid food_id q d meal).daily_intake
          (uid, food_id, d, meal) =
          some (match S.daily_intake (uid, food_id, d, meal) with
            | none => q
            | some old => old + q) := by
        simp [log_daily_intake, Function.update_same]
      rw [hval, ih]
      by_cases hk : k = 0
      · subst hk
        simp
      · simp only [hk, if_false, Nat.succ_ne_zero]
        congr 1
        push_cast
        ring

/-- C8 witness: on a fresh state, the double weight upsert equals the single
one, and three identical 50 g logs store 150 g. -/
theorem weight_upsert_intake_witness :
    exampleDB.daily_intake (1, 2, 3, "Lunch") = none ∧
    (add_weight_entry_internal (add_weight_entry_internal exampleDB 1 80 3) 1 80 3 =
      add_weight_entry_internal exampleDB 1 80 3 ∧
    ((fun s => log_daily_intake s 1 2 50 3 "Lunch")^[3] exampleDB).daily_intake
        (1, 2, 3, "Lunch") =
      (if (3 : ℕ) = 0 then none else some (((3 : ℕ) : ℚ) * 50))) :=
  ⟨rfl, weight_upsert_idempotent_intake_accumulates exampleDB 1 2 80 50 3 "Lunch" 3 rfl⟩

end CalorieTracker
